import Mathlib

/-!
# Verification of the transaction JSON/RLP codec layer

Shallow embedding of the transaction representation layer of the
Zecrey-Labs/go-ethereum fork: the `txJSON` exchange record, the payload
variant catalog (`LegacyTx`, `ZetaCosmosEVMTx`, `AccessListTx`,
`DynamicFeeTx`, `BlobTx`, `DepositTx`, `DepositTxMantle`, `L1MessageTx`,
the Arbitrum family), `Transaction.MarshalJSON` / `Transaction.UnmarshalJSON`
(core/types/transaction_marshalling.go), the effective-nonce wrapper types
`depositTxWithNonce` / `depositMantleTxWithNonce` and their `EncodeRLP`,
and the `copy` deep-copy operations of `DepositTxMantle`
(core/types/tx_deposit_mantle.go) and `ZetaCosmosEVMTx`
(core/types/tx_zeta.go).

Modelling conventions:
* `uint64` fields become `Nat`; `common.Hash` / `common.Address` become
  `Nat` (interpreted as the 32-byte / 20-byte big-endian value);
* `*big.Int` fields become `Option Nat` (`none` = nil pointer; `hexutil.Big`
  values are non-negative, and the JSON parsing layer `hexutil.Big` caps
  them at 256 bits, so `uint256.MustFromBig` never panics on decoded
  values and is modelled as the identity);
* `[]byte` becomes `List Nat` (byte values), `bool` becomes `Bool`;
* the generic `encoding/json` layer (Go struct tags) is the identity on the
  `txJSON` record: encode produces a `TxJSON` value and decode consumes one;
* errors built with `errors.New` become constructors of `DecodeErr`; the
  missing-field errors carry exactly the field name quoted in the source
  message.
-/

/-- An access list is a list of (address, storage-key list) tuples. -/
abbrev AccessList := List (Nat × List Nat)

/-- Modelled from the spec: the standard type discriminant bytes
(`LegacyTxType` .. `BlobTxType`, `DepositTxType`) are declared in
core/types files outside the provided slice; the values are the upstream
go-ethereum / op-geth constants.  Only their pairwise distinctness matters
for the claims. -/
def LegacyTxType : Nat := 0x00

/-- Modelled from the spec: upstream `AccessListTxType` constant. -/
def AccessListTxType : Nat := 0x01

/-- Modelled from the spec: upstream `DynamicFeeTxType` constant. -/
def DynamicFeeTxType : Nat := 0x02

/-- Modelled from the spec: upstream `BlobTxType` constant. -/
def BlobTxType : Nat := 0x03

/-- Discriminant of the Zeta variant, from core/types/tx_zeta.go. -/
def ZetaCosmosEVMTxType : Nat := 0x58

/-- Modelled from the spec: upstream op-geth `DepositTxType` constant. -/
def DepositTxType : Nat := 0x7e

/-- Arbitrum discriminants, from core/types/tx_arbitrum.go. -/
def ArbitrumDepositTxType : Nat := 0x64

/-- Arbitrum unsigned tx discriminant, core/types/tx_arbitrum.go. -/
def ArbitrumUnsignedTxType : Nat := 0x65

/-- Arbitrum contract tx discriminant, core/types/tx_arbitrum.go. -/
def ArbitrumContractTxType : Nat := 0x66

/-- Arbitrum retry tx discriminant, core/types/tx_arbitrum.go. -/
def ArbitrumRetryTxType : Nat := 0x68

/-- Arbitrum submit-retryable discriminant, core/types/tx_arbitrum.go. -/
def ArbitrumSubmitRetryableTxType : Nat := 0x69

/-- Arbitrum internal tx discriminant, core/types/tx_arbitrum.go. -/
def ArbitrumInternalTxType : Nat := 0x6A

/-- Arbitrum legacy replay discriminant, core/types/tx_arbitrum.go. -/
def ArbitrumLegacyTxType : Nat := 0x78

/-! ## RLP encoding

Modelled from the spec (the `rlp` package is outside the provided source
slice): the canonical length-prefixed structured encoding of §4.3 - big
integers as minimal-length big-endian byte strings, addresses as fixed
20 bytes, hashes as fixed 32 bytes, a struct as the list of its encoded
fields in declaration order, nil-tagged pointer fields as the empty
string, trailing `optional` fields omitted when nil. -/

/-- Minimal-length big-endian byte string of a natural number (`0 ↦ []`). -/
def natBytesBE (n : Nat) : List Nat :=
  if h : n = 0 then [] else natBytesBE (n / 256) ++ [n % 256]
decreasing_by exact Nat.div_lt_self (Nat.pos_of_ne_zero h) (by decide)

/-- Fixed-width big-endian byte string (width `w`). -/
def natToBEFixed (w n : Nat) : List Nat :=
  (List.range w).map (fun i => n / 256 ^ (w - 1 - i) % 256)

/-- RLP encoding of a byte string. -/
def rlpEncodeBytes (bs : List Nat) : List Nat :=
  match bs with
  | [b] => if b < 128 then [b] else [129, b]
  | _ =>
    if bs.length ≤ 55 then (128 + bs.length) :: bs
    else (183 + (natBytesBE bs.length).length) :: (natBytesBE bs.length ++ bs)

/-- RLP list header prepended to an already-encoded payload. -/
def rlpEncodeListPayload (payload : List Nat) : List Nat :=
  if payload.length ≤ 55 then (192 + payload.length) :: payload
  else (247 + (natBytesBE payload.length).length) :: (natBytesBE payload.length ++ payload)

/-- RLP encoding of a big integer (minimal big-endian bytes). -/
def rlpNat (n : Nat) : List Nat := rlpEncodeBytes (natBytesBE n)

/-- RLP encoding of a nilable big integer: nil encodes as the empty string. -/
def rlpOptNat (o : Option Nat) : List Nat :=
  rlpEncodeBytes (match o with | some n => natBytesBE n | none => [])

/-- RLP encoding of a 20-byte address. -/
def rlpAddr (a : Nat) : List Nat := rlpEncodeBytes (natToBEFixed 20 a)

/-- RLP encoding of a nilable address pointer: nil encodes as empty string. -/
def rlpOptAddr (o : Option Nat) : List Nat :=
  match o with | some a => rlpAddr a | none => [128]

/-- RLP encoding of a 32-byte hash. -/
def rlpHashVal (h : Nat) : List Nat := rlpEncodeBytes (natToBEFixed 32 h)

/-- RLP encoding of a boolean. -/
def rlpBool (b : Bool) : List Nat := if b then [1] else [128]

/-! ## The payload variant catalog (§3)

Field names follow the Go structs (Lean reserves `to`, so the Go field
casing is kept verbatim: `To`, `Nonce`, ...). -/

/-- `LegacyTx`, mirroring the upstream struct used by the decode branch
(fields in declaration order: Nonce, GasPrice, Gas, To, Value, Data,
V, R, S). -/
structure LegacyTx where
  Nonce : Nat
  GasPrice : Option Nat
  Gas : Nat
  To : Option Nat
  Value : Option Nat
  Data : List Nat
  V : Option Nat
  R : Option Nat
  S : Option Nat
deriving DecidableEq, Repr

/-- `ZetaCosmosEVMTx` from core/types/tx_zeta.go. -/
structure ZetaCosmosEVMTx where
  BlockHash : Nat
  TxHash : Nat
  Nonce : Nat
  GasPrice : Option Nat
  Gas : Nat
  To : Option Nat
  Value : Option Nat
  Data : List Nat
  V : Option Nat
  R : Option Nat
  S : Option Nat
deriving DecidableEq, Repr

/-- `AccessListTx`, mirroring the upstream struct used by the decode branch. -/
structure AccessListTx where
  ChainID : Option Nat
  Nonce : Nat
  GasPrice : Option Nat
  Gas : Nat
  To : Option Nat
  Value : Option Nat
  Data : List Nat
  accessList : AccessList
  V : Option Nat
  R : Option Nat
  S : Option Nat
deriving DecidableEq, Repr

/-- `DynamicFeeTx`, mirroring the upstream struct used by the decode branch. -/
structure DynamicFeeTx where
  ChainID : Option Nat
  Nonce : Nat
  GasTipCap : Option Nat
  GasFeeCap : Option Nat
  Gas : Nat
  To : Option Nat
  Value : Option Nat
  Data : List Nat
  accessList : AccessList
  V : Option Nat
  R : Option Nat
  S : Option Nat
deriving DecidableEq, Repr

/-- `BlobTx`: its numeric fields are non-pointer `uint256.Int` values,
so they are plain `Nat` here. -/
structure BlobTx where
  ChainID : Nat
  Nonce : Nat
  GasTipCap : Nat
  GasFeeCap : Nat
  Gas : Nat
  To : Option Nat
  Value : Nat
  Data : List Nat
  accessList : AccessList
  BlobFeeCap : Nat
  BlobHashes : List Nat
  V : Nat
  R : Nat
  S : Nat
deriving DecidableEq, Repr

/-- Modelled from the spec: the base `DepositTx` struct (op-geth shape) is
outside the provided slice; its field set is exactly the set touched by
the `DepositTx` decode branch of `Transaction.UnmarshalJSON`, in the same
order as the in-slice `DepositTxMantle` minus the two BVM_ETH fields. -/
structure DepositTx where
  SourceHash : Nat
  From : Nat
  To : Option Nat
  Mint : Option Nat
  Value : Option Nat
  Gas : Nat
  IsSystemTransaction : Bool
  Data : List Nat
deriving DecidableEq, Repr

/-- `DepositTxMantle` from core/types/tx_deposit_mantle.go, fields in
declaration order (EthValue sits between IsSystemTransaction and Data;
EthTxValue is a trailing rlp-optional field). -/
structure DepositTxMantle where
  SourceHash : Nat
  From : Nat
  To : Option Nat
  Mint : Option Nat
  Value : Option Nat
  Gas : Nat
  IsSystemTransaction : Bool
  EthValue : Option Nat
  Data : List Nat
  EthTxValue : Option Nat
deriving DecidableEq, Repr

/-- Modelled from the spec: the `L1MessageTx` struct (Scroll shape) is
outside the provided slice; its fields are the ones populated by the
sender-present branch of the deposit decode path. -/
structure L1MessageTx where
  QueueIndex : Nat
  Gas : Nat
  To : Option Nat
  Value : Option Nat
  Data : List Nat
  Sender : Nat
deriving DecidableEq, Repr

/-- `ArbitrumLegacyTxData`: a legacy payload plus replay metadata, as
constructed by the `ArbitrumLegacyTxType` decode branch. -/
structure ArbitrumLegacyTxData where
  LegacyTx : LegacyTx
  HashOverride : Nat
  EffectiveGasPrice : Nat
  L1BlockNumber : Nat
  Sender : Option Nat
deriving DecidableEq, Repr

/-- `ArbitrumInternalTx` as constructed by its decode branch. -/
structure ArbitrumInternalTx where
  ChainId : Option Nat
  Data : List Nat
deriving DecidableEq, Repr

/-- `ArbitrumDepositTx` as constructed by its decode branch. -/
structure ArbitrumDepositTx where
  ChainId : Option Nat
  L1RequestId : Nat
  From : Nat
  To : Nat
  Value : Option Nat
deriving DecidableEq, Repr

/-- `ArbitrumUnsignedTx` as constructed by its decode branch. -/
structure ArbitrumUnsignedTx where
  ChainId : Option Nat
  From : Nat
  Nonce : Nat
  GasFeeCap : Option Nat
  Gas : Nat
  To : Option Nat
  Value : Option Nat
  Data : List Nat
deriving DecidableEq, Repr

/-- `ArbitrumContractTx` as constructed by its decode branch. -/
structure ArbitrumContractTx where
  ChainId : Option Nat
  RequestId : Nat
  From : Nat
  GasFeeCap : Option Nat
  Gas : Nat
  To : Option Nat
  Value : Option Nat
  Data : List Nat
deriving DecidableEq, Repr

/-- `ArbitrumRetryTx` as constructed by its decode branch. -/
structure ArbitrumRetryTx where
  ChainId : Option Nat
  Nonce : Nat
  From : Nat
  GasFeeCap : Option Nat
  Gas : Nat
  To : Option Nat
  Value : Option Nat
  Data : List Nat
  TicketId : Nat
  RefundTo : Nat
  MaxRefund : Option Nat
  SubmissionFeeRefund : Option Nat
deriving DecidableEq, Repr

/-- `ArbitrumSubmitRetryableTx` as constructed by its decode branch. -/
structure ArbitrumSubmitRetryableTx where
  ChainId : Option Nat
  RequestId : Nat
  From : Nat
  L1BaseFee : Option Nat
  DepositValue : Option Nat
  GasFeeCap : Option Nat
  Gas : Nat
  RetryTo : Option Nat
  RetryValue : Option Nat
  Beneficiary : Nat
  MaxSubmissionFee : Option Nat
  FeeRefundAddr : Nat
  RetryData : List Nat
deriving DecidableEq, Repr

/-- `depositTxWithNonce` from transaction_marshalling.go: an embedded
`DepositTx` plus the execution-time `EffectiveNonce`. -/
structure depositTxWithNonce where
  toDepositTx : DepositTx
  EffectiveNonce : Nat
deriving DecidableEq, Repr

/-- `depositMantleTxWithNonce` from transaction_marshalling.go. -/
structure depositMantleTxWithNonce where
  toDepositTxMantle : DepositTxMantle
  EffectiveNonce : Nat
deriving DecidableEq, Repr

/-- The closed catalog of concrete payloads behind the `TxData` interface
value produced by `Transaction.UnmarshalJSON`. -/
inductive TxData where
  | legacy (t : LegacyTx)
  | zeta (t : ZetaCosmosEVMTx)
  | accessListTx (t : AccessListTx)
  | dynamicFee (t : DynamicFeeTx)
  | blob (t : BlobTx)
  | deposit (t : DepositTx)
  | depositWithNonce (w : depositTxWithNonce)
  | depositMantle (t : DepositTxMantle)
  | depositMantleWithNonce (w : depositMantleTxWithNonce)
  | l1Message (t : L1MessageTx)
  | arbLegacy (t : ArbitrumLegacyTxData)
  | arbInternal (t : ArbitrumInternalTx)
  | arbDeposit (t : ArbitrumDepositTx)
  | arbUnsigned (t : ArbitrumUnsignedTx)
  | arbContract (t : ArbitrumContractTx)
  | arbRetry (t : ArbitrumRetryTx)
  | arbSubmitRetryable (t : ArbitrumSubmitRetryableTx)
deriving DecidableEq, Repr

/-! ## Errors (§7) -/

/-- Decode errors of `Transaction.UnmarshalJSON`.  Each constructor stands
for one distinct `errors.New` message (or error value) of the source;
`missingField` carries exactly the field name quoted in the message. -/
inductive DecodeErr where
  | missingField (name : String)
  | unexpectedDepositFields
  | depositGasPriceNotZero
  | depositSignatureNotZero
  | invalidSignature
  | txTypeNotSupported
deriving DecidableEq, Repr

/-! ## The txJSON exchange record (§4.4) -/

/-- The `txJSON` record from transaction_marshalling.go.  Default values
are the Go zero value of the record (pointers nil, hashes zero), which is
what `json.Unmarshal` leaves for absent fields and what `MarshalJSON`
starts from. -/
structure TxJSON where
  TxType : Nat := 0
  ChainID : Option Nat := none
  Nonce : Option Nat := none
  To : Option Nat := none
  Gas : Option Nat := none
  GasPrice : Option Nat := none
  MaxPriorityFeePerGas : Option Nat := none
  MaxFeePerGas : Option Nat := none
  MaxFeePerDataGas : Option Nat := none
  MaxFeePerBlobGas : Option Nat := none
  Value : Option Nat := none
  Input : Option (List Nat) := none
  accessList : Option AccessList := none
  BlobVersionedHashes : Option (List Nat) := none
  V : Option Nat := none
  R : Option Nat := none
  S : Option Nat := none
  SourceHash : Option Nat := none
  From : Option Nat := none
  Mint : Option Nat := none
  EthValue : Option Nat := none
  EthTxValue : Option Nat := none
  IsSystemTx : Option Bool := none
  RequestId : Option Nat := none
  TicketId : Option Nat := none
  MaxRefund : Option Nat := none
  SubmissionFeeRefund : Option Nat := none
  RefundTo : Option Nat := none
  L1BaseFee : Option Nat := none
  DepositValue : Option Nat := none
  RetryTo : Option Nat := none
  RetryValue : Option Nat := none
  RetryData : Option (List Nat) := none
  Beneficiary : Option Nat := none
  MaxSubmissionFee : Option Nat := none
  EffectiveGasPrice : Option Nat := none
  L1BlockNumber : Option Nat := none
  Hash : Nat := 0
  BlockHash : Nat := 0
  Sender : Option Nat := none
  QueueIndex : Option Nat := none
deriving DecidableEq, Repr

/-! ## Decode helpers -/

/-- Modelled from the spec: `sanityCheckSignature` lives outside the
provided source slice.  Per §4.4 step 3, `v` must lie in the legal
recovery-id range for the variant's signing scheme - legacy-style callers
(`maybeProtected = true`) accept the raw pre-EIP-155 values 27/28 or a
chain-id-derived (EIP-155 protected, `v ≥ 35`) value, all others accept
only the recovery ids 0/1 - and `r`, `s` must be non-zero. -/
def sanityCheckSignature (v r s : Nat) (maybeProtected : Bool) : Bool :=
  (if maybeProtected then v == 27 || v == 28 || decide (35 ≤ v)
   else v == 0 || v == 1) && r != 0 && s != 0

/-- A required JSON field: absent fails with the missing-field error
naming the field, mirroring the `if dec.X == nil { return errors.New(...) }`
pattern of every decode branch. -/
def reqField {α : Type} (o : Option α) (name : String) : Except DecodeErr α :=
  match o with
  | some x => .ok x
  | none => .error (.missingField name)

/-- `presentNonZero o` is the Go test `o != nil && o.ToInt().Cmp(common.Big0) != 0`. -/
def presentNonZero (o : Option Nat) : Bool :=
  match o with
  | some x => x != 0
  | none => false

/-! ## Transaction.UnmarshalJSON, branch by branch

The Go decode branches are straight-line code with early `return err`
exits.  They are translated with the explicit sequencing `andThen`
(early-return on error) rather than monadic notation, so that the
translation is plain pattern matching. -/

/-- Early-return sequencing: stop at the first error, mirroring Go's
`if err != nil { return err }`. -/
def andThen {a : Type} (e : Except DecodeErr a) (k : a -> Except DecodeErr TxData) :
    Except DecodeErr TxData :=
  match e with
  | .ok x => k x
  | .error err => .error err

/-- The `LegacyTxType` branch of `Transaction.UnmarshalJSON`. -/
def decodeLegacy (dec : TxJSON) : Except DecodeErr TxData :=
  andThen (reqField dec.Nonce "nonce") fun nonce =>
  andThen (reqField dec.Gas "gas") fun gas =>
  andThen (reqField dec.GasPrice "gasPrice") fun gasPrice =>
  andThen (reqField dec.Value "value") fun value =>
  andThen (reqField dec.Input "input") fun input =>
  andThen (reqField dec.V "v") fun v =>
  andThen (reqField dec.R "r") fun r =>
  andThen (reqField dec.S "s") fun s =>
  if (v != 0 || r != 0 || s != 0) && !(sanityCheckSignature v r s true) then
    .error DecodeErr.invalidSignature
  else
    .ok (TxData.legacy
      { Nonce := nonce, GasPrice := some gasPrice, Gas := gas, To := dec.To,
        Value := some value, Data := input, V := some v, R := some r, S := some s })

/-- The `ZetaCosmosEVMTxType` branch: reads Hash/BlockHash from the JSON
object, never reads V/R/S, and pins the signature triple to zero
(`itx.V = big.NewInt(0)` and likewise for R and S). -/
def decodeZeta (dec : TxJSON) : Except DecodeErr TxData :=
  andThen (reqField dec.Nonce "nonce") fun nonce =>
  andThen (reqField dec.Gas "gas") fun gas =>
  andThen (reqField dec.GasPrice "gasPrice") fun gasPrice =>
  andThen (reqField dec.Value "value") fun value =>
  andThen (reqField dec.Input "input") fun input =>
  .ok (TxData.zeta
    { BlockHash := dec.BlockHash, TxHash := dec.Hash, Nonce := nonce,
      GasPrice := some gasPrice, Gas := gas, To := dec.To, Value := some value,
      Data := input, V := some 0, R := some 0, S := some 0 })

/-- The `AccessListTxType` branch. -/
def decodeAccessList (dec : TxJSON) : Except DecodeErr TxData :=
  andThen (reqField dec.ChainID "chainId") fun chainId =>
  andThen (reqField dec.Nonce "nonce") fun nonce =>
  andThen (reqField dec.Gas "gas") fun gas =>
  andThen (reqField dec.GasPrice "gasPrice") fun gasPrice =>
  andThen (reqField dec.Value "value") fun value =>
  andThen (reqField dec.Input "input") fun input =>
  andThen (reqField dec.V "v") fun v =>
  andThen (reqField dec.R "r") fun r =>
  andThen (reqField dec.S "s") fun s =>
  if (v != 0 || r != 0 || s != 0) && !(sanityCheckSignature v r s false) then
    .error DecodeErr.invalidSignature
  else
    .ok (TxData.accessListTx
      { ChainID := some chainId, Nonce := nonce, GasPrice := some gasPrice,
        Gas := gas, To := dec.To, Value := some value, Data := input,
        accessList := dec.accessList.getD [], V := some v, R := some r, S := some s })

/-- The `DynamicFeeTxType` branch. -/
def decodeDynamicFee (dec : TxJSON) : Except DecodeErr TxData :=
  andThen (reqField dec.ChainID "chainId") fun chainId =>
  andThen (reqField dec.Nonce "nonce") fun nonce =>
  andThen (reqField dec.Gas "gas") fun gas =>
  andThen (reqField dec.MaxPriorityFeePerGas "maxPriorityFeePerGas") fun gasTipCap =>
  andThen (reqField dec.MaxFeePerGas "maxFeePerGas") fun gasFeeCap =>
  andThen (reqField dec.Value "value") fun value =>
  andThen (reqField dec.Input "input") fun input =>
  andThen (reqField dec.V "v") fun v =>
  andThen (reqField dec.R "r") fun r =>
  andThen (reqField dec.S "s") fun s =>
  if (v != 0 || r != 0 || s != 0) && !(sanityCheckSignature v r s false) then
    .error DecodeErr.invalidSignature
  else
    .ok (TxData.dynamicFee
      { ChainID := some chainId, Nonce := nonce, GasTipCap := some gasTipCap,
        GasFeeCap := some gasFeeCap, Gas := gas, To := dec.To, Value := some value,
        Data := input, accessList := dec.accessList.getD [],
        V := some v, R := some r, S := some s })

/-- The `BlobTxType` branch.  The decoder requires `maxFeePerBlobGas`
(the pre-upgrade `maxFeePerDataGas` requirement is commented out in the
source).  `uint256.MustFromBig` is the identity here because `hexutil.Big`
caps JSON numbers at 256 bits. -/
def decodeBlob (dec : TxJSON) : Except DecodeErr TxData :=
  andThen (reqField dec.ChainID "chainId") fun chainId =>
  andThen (reqField dec.Nonce "nonce") fun nonce =>
  andThen (reqField dec.Gas "gas") fun gas =>
  andThen (reqField dec.MaxPriorityFeePerGas "maxPriorityFeePerGas") fun gasTipCap =>
  andThen (reqField dec.MaxFeePerGas "maxFeePerGas") fun gasFeeCap =>
  andThen (reqField dec.MaxFeePerBlobGas "maxFeePerBlobGas") fun blobFeeCap =>
  andThen (reqField dec.Value "value") fun value =>
  andThen (reqField dec.Input "input") fun input =>
  andThen (reqField dec.V "v") fun v =>
  andThen (reqField dec.BlobVersionedHashes "blobVersionedHashes") fun blobHashes =>
  andThen (reqField dec.R "r") fun r =>
  andThen (reqField dec.S "s") fun s =>
  if (v != 0 || r != 0 || s != 0) && !(sanityCheckSignature v r s false) then
    .error DecodeErr.invalidSignature
  else
    .ok (TxData.blob
      { ChainID := chainId, Nonce := nonce, GasTipCap := gasTipCap,
        GasFeeCap := gasFeeCap, Gas := gas, To := dec.To, Value := value,
        Data := input, accessList := dec.accessList.getD [],
        BlobFeeCap := blobFeeCap, BlobHashes := blobHashes, V := v, R := r, S := s })

/-- The `DepositTxType` branch: forbidden-field checks, then the
sub-variant dispatch on `ethValue` / `sender`, with the effective-nonce
wrapping when a `nonce` field is present (mantle and base sub-variants
only). -/
def decodeDeposit (dec : TxJSON) : Except DecodeErr TxData :=
  if dec.accessList.isSome || dec.MaxFeePerGas.isSome || dec.MaxPriorityFeePerGas.isSome then
    .error DecodeErr.unexpectedDepositFields
  else if presentNonZero dec.GasPrice then
    .error DecodeErr.depositGasPriceNotZero
  else if presentNonZero dec.V || presentNonZero dec.R || presentNonZero dec.S then
    .error DecodeErr.depositSignatureNotZero
  else
    match dec.EthValue with
    | some _ =>
      andThen (reqField dec.Gas "gas") fun gas =>
      andThen (reqField dec.Value "value") fun value =>
      andThen (reqField dec.Input "input") fun input =>
      andThen (reqField dec.From "from") fun sender =>
      let itx : DepositTxMantle :=
        { SourceHash := dec.SourceHash.getD 0, From := sender, To := dec.To,
          Mint := dec.Mint, Value := some value, Gas := gas,
          IsSystemTransaction := dec.IsSystemTx.getD false,
          EthValue := dec.EthValue, Data := input, EthTxValue := dec.EthTxValue }
      match dec.Nonce with
      | some n => .ok (TxData.depositMantleWithNonce { toDepositTxMantle := itx, EffectiveNonce := n })
      | none => .ok (TxData.depositMantle itx)
    | none =>
      match dec.Sender with
      | some sender =>
        andThen (reqField dec.QueueIndex "queueIndex") fun queueIndex =>
        andThen (reqField dec.Gas "gas") fun gas =>
        andThen (reqField dec.Value "value") fun value =>
        andThen (reqField dec.Input "input") fun input =>
        .ok (TxData.l1Message
          { QueueIndex := queueIndex, Gas := gas, To := dec.To,
            Value := some value, Data := input, Sender := sender })
      | none =>
        andThen (reqField dec.Gas "gas") fun gas =>
        andThen (reqField dec.Value "value") fun value =>
        andThen (reqField dec.Input "input") fun input =>
        andThen (reqField dec.From "from") fun sender =>
        andThen (reqField dec.SourceHash "sourceHash") fun sourceHash =>
        let itx : DepositTx :=
          { SourceHash := sourceHash, From := sender, To := dec.To,
            Mint := dec.Mint, Value := some value, Gas := gas,
            IsSystemTransaction := dec.IsSystemTx.getD false, Data := input }
        match dec.Nonce with
        | some n => .ok (TxData.depositWithNonce { toDepositTx := itx, EffectiveNonce := n })
        | none => .ok (TxData.deposit itx)

/-- The `ArbitrumLegacyTxType` branch.  Note the missing-field messages
quote the Go field names `EffectiveGasPrice` / `L1BlockNumber` verbatim. -/
def decodeArbLegacy (dec : TxJSON) : Except DecodeErr TxData :=
  andThen (reqField dec.Nonce "nonce") fun nonce =>
  andThen (reqField dec.GasPrice "gasPrice") fun gasPrice =>
  andThen (reqField dec.Gas "gas") fun gas =>
  andThen (reqField dec.Value "value") fun value =>
  andThen (reqField dec.Input "input") fun input =>
  andThen (reqField dec.V "v") fun v =>
  andThen (reqField dec.R "r") fun r =>
  andThen (reqField dec.S "s") fun s =>
  if (v != 0 || r != 0 || s != 0) && !(sanityCheckSignature v r s true) then
    .error DecodeErr.invalidSignature
  else
    andThen (reqField dec.EffectiveGasPrice "EffectiveGasPrice") fun egp =>
    andThen (reqField dec.L1BlockNumber "L1BlockNumber") fun l1bn =>
    .ok (TxData.arbLegacy
      { LegacyTx :=
          { Nonce := nonce, GasPrice := some gasPrice, Gas := gas, To := dec.To,
            Value := some value, Data := input, V := some v, R := some r, S := some s },
        HashOverride := dec.Hash, EffectiveGasPrice := egp,
        L1BlockNumber := l1bn, Sender := dec.From })

/-- The `ArbitrumInternalTxType` branch. -/
def decodeArbInternal (dec : TxJSON) : Except DecodeErr TxData :=
  andThen (reqField dec.ChainID "chainId") fun chainId =>
  andThen (reqField dec.Input "input") fun input =>
  .ok (TxData.arbInternal { ChainId := some chainId, Data := input })

/-- The `ArbitrumDepositTxType` branch. -/
def decodeArbDeposit (dec : TxJSON) : Except DecodeErr TxData :=
  andThen (reqField dec.ChainID "chainId") fun chainId =>
  andThen (reqField dec.RequestId "requestId") fun requestId =>
  andThen (reqField dec.To "to") fun toAddr =>
  andThen (reqField dec.From "from") fun sender =>
  andThen (reqField dec.Value "value") fun value =>
  .ok (TxData.arbDeposit
    { ChainId := some chainId, L1RequestId := requestId, To := toAddr,
      From := sender, Value := some value })

/-- The `ArbitrumUnsignedTxType` branch. -/
def decodeArbUnsigned (dec : TxJSON) : Except DecodeErr TxData :=
  andThen (reqField dec.ChainID "chainId") fun chainId =>
  andThen (reqField dec.From "from") fun sender =>
  andThen (reqField dec.Nonce "nonce") fun nonce =>
  andThen (reqField dec.MaxFeePerGas "maxFeePerGas") fun gasFeeCap =>
  andThen (reqField dec.Gas "gas") fun gas =>
  andThen (reqField dec.Value "value") fun value =>
  andThen (reqField dec.Input "input") fun input =>
  .ok (TxData.arbUnsigned
    { ChainId := some chainId, From := sender, Nonce := nonce,
      GasFeeCap := some gasFeeCap, Gas := gas, To := dec.To,
      Value := some value, Data := input })

/-- The `ArbitrumContractTxType` branch. -/
def decodeArbContract (dec : TxJSON) : Except DecodeErr TxData :=
  andThen (reqField dec.ChainID "chainId") fun chainId =>
  andThen (reqField dec.RequestId "requestId") fun requestId =>
  andThen (reqField dec.From "from") fun sender =>
  andThen (reqField dec.MaxFeePerGas "maxFeePerGas") fun gasFeeCap =>
  andThen (reqField dec.Gas "gas") fun gas =>
  andThen (reqField dec.Value "value") fun value =>
  andThen (reqField dec.Input "input") fun input =>
  .ok (TxData.arbContract
    { ChainId := some chainId, RequestId := requestId, From := sender,
      GasFeeCap := some gasFeeCap, Gas := gas, To := dec.To,
      Value := some value, Data := input })

/-- The `ArbitrumRetryTxType` branch. -/
def decodeArbRetry (dec : TxJSON) : Except DecodeErr TxData :=
  andThen (reqField dec.ChainID "chainId") fun chainId =>
  andThen (reqField dec.Nonce "nonce") fun nonce =>
  andThen (reqField dec.From "from") fun sender =>
  andThen (reqField dec.MaxFeePerGas "maxFeePerGas") fun gasFeeCap =>
  andThen (reqField dec.Gas "gas") fun gas =>
  andThen (reqField dec.Value "value") fun value =>
  andThen (reqField dec.Input "input") fun input =>
  andThen (reqField dec.TicketId "ticketId") fun ticketId =>
  andThen (reqField dec.RefundTo "refundTo") fun refundTo =>
  andThen (reqField dec.MaxRefund "maxRefund") fun maxRefund =>
  andThen (reqField dec.SubmissionFeeRefund "submissionFeeRefund") fun submissionFeeRefund =>
  .ok (TxData.arbRetry
    { ChainId := some chainId, Nonce := nonce, From := sender,
      GasFeeCap := some gasFeeCap, Gas := gas, To := dec.To,
      Value := some value, Data := input, TicketId := ticketId,
      RefundTo := refundTo, MaxRefund := some maxRefund,
      SubmissionFeeRefund := some submissionFeeRefund })

/-- The `ArbitrumSubmitRetryableTxType` branch. -/
def decodeArbSubmitRetryable (dec : TxJSON) : Except DecodeErr TxData :=
  andThen (reqField dec.ChainID "chainId") fun chainId =>
  andThen (reqField dec.RequestId "requestId") fun requestId =>
  andThen (reqField dec.From "from") fun sender =>
  andThen (reqField dec.L1BaseFee "l1BaseFee") fun l1BaseFee =>
  andThen (reqField dec.DepositValue "depositValue") fun depositValue =>
  andThen (reqField dec.MaxFeePerGas "maxFeePerGas") fun gasFeeCap =>
  andThen (reqField dec.Gas "gas") fun gas =>
  andThen (reqField dec.Beneficiary "beneficiary") fun beneficiary =>
  andThen (reqField dec.MaxSubmissionFee "maxSubmissionFee") fun maxSubmissionFee =>
  andThen (reqField dec.RefundTo "refundTo") fun refundTo =>
  andThen (reqField dec.RetryValue "retryValue") fun retryValue =>
  andThen (reqField dec.RetryData "retryData") fun retryData =>
  .ok (TxData.arbSubmitRetryable
    { ChainId := some chainId, RequestId := requestId, From := sender,
      L1BaseFee := some l1BaseFee, DepositValue := some depositValue,
      GasFeeCap := some gasFeeCap, Gas := gas, RetryTo := dec.RetryTo,
      RetryValue := some retryValue, Beneficiary := beneficiary,
      MaxSubmissionFee := some maxSubmissionFee, FeeRefundAddr := refundTo,
      RetryData := retryData })

/-- `Transaction.UnmarshalJSON`: dispatch on the declared type
discriminant; an unknown discriminant returns the fixed
`ErrTxTypeNotSupported` value (the raw discriminant is only printed with
`fmt.Println`, it is not part of the returned error). -/
def UnmarshalJSON (dec : TxJSON) : Except DecodeErr TxData :=
  if dec.TxType = LegacyTxType then decodeLegacy dec
  else if dec.TxType = ZetaCosmosEVMTxType then decodeZeta dec
  else if dec.TxType = AccessListTxType then decodeAccessList dec
  else if dec.TxType = DynamicFeeTxType then decodeDynamicFee dec
  else if dec.TxType = BlobTxType then decodeBlob dec
  else if dec.TxType = DepositTxType then decodeDeposit dec
  else if dec.TxType = ArbitrumLegacyTxType then decodeArbLegacy dec
  else if dec.TxType = ArbitrumInternalTxType then decodeArbInternal dec
  else if dec.TxType = ArbitrumDepositTxType then decodeArbDeposit dec
  else if dec.TxType = ArbitrumUnsignedTxType then decodeArbUnsigned dec
  else if dec.TxType = ArbitrumContractTxType then decodeArbContract dec
  else if dec.TxType = ArbitrumRetryTxType then decodeArbRetry dec
  else if dec.TxType = ArbitrumSubmitRetryableTxType then decodeArbSubmitRetryable dec
  else .error DecodeErr.txTypeNotSupported

/-! ## Transaction.MarshalJSON -/

/-- `TxData.txType`: the per-variant type discriminant (`txType()` of each
payload; the wrappers inherit it from the embedded deposit payload, and
the Scroll L1 message variant shares the deposit discriminant, which is
why the deposit decode branch dispatches on field presence). -/
def TxData.txType : TxData → Nat
  | .legacy _ => LegacyTxType
  | .zeta _ => ZetaCosmosEVMTxType
  | .accessListTx _ => AccessListTxType
  | .dynamicFee _ => DynamicFeeTxType
  | .blob _ => BlobTxType
  | .deposit _ => DepositTxType
  | .depositWithNonce _ => DepositTxType
  | .depositMantle _ => DepositTxType
  | .depositMantleWithNonce _ => DepositTxType
  | .l1Message _ => DepositTxType
  | .arbLegacy _ => ArbitrumLegacyTxType
  | .arbInternal _ => ArbitrumInternalTxType
  | .arbDeposit _ => ArbitrumDepositTxType
  | .arbUnsigned _ => ArbitrumUnsignedTxType
  | .arbContract _ => ArbitrumContractTxType
  | .arbRetry _ => ArbitrumRetryTxType
  | .arbSubmitRetryable _ => ArbitrumSubmitRetryableTxType

/-- `Transaction.MarshalJSON`: sets Hash and Type for every payload, then
populates per-variant fields by the switch on the concrete payload type.
The switch covers only the legacy, Zeta, access-list, dynamic-fee and
blob variants; every other payload marshals as the bare Hash/Type record.
In the blob case the blob fee cap is written to `maxFeePerDataGas` (and
`maxFeePerBlobGas` is never set).  `txHash` stands for the value of
`tx.Hash()`, which is computed outside this function. -/
def MarshalJSON (txHash : Nat) (inner : TxData) : TxJSON :=
  let enc : TxJSON := { Hash := txHash, TxType := inner.txType }
  match inner with
  | .legacy t =>
    { enc with
      Nonce := some t.Nonce, To := t.To, Gas := some t.Gas,
      GasPrice := t.GasPrice, Value := t.Value, Input := some t.Data,
      V := t.V, R := t.R, S := t.S }
  | .zeta t =>
    { enc with
      Nonce := some t.Nonce, To := t.To, Gas := some t.Gas,
      GasPrice := t.GasPrice, Value := t.Value, Input := some t.Data,
      V := t.V, R := t.R, S := t.S }
  | .accessListTx t =>
    { enc with
      ChainID := t.ChainID, Nonce := some t.Nonce, To := t.To,
      Gas := some t.Gas, GasPrice := t.GasPrice, Value := t.Value,
      Input := some t.Data, accessList := some t.accessList,
      V := t.V, R := t.R, S := t.S }
  | .dynamicFee t =>
    { enc with
      ChainID := t.ChainID, Nonce := some t.Nonce, To := t.To,
      Gas := some t.Gas, MaxFeePerGas := t.GasFeeCap,
      MaxPriorityFeePerGas := t.GasTipCap, Value := t.Value,
      Input := some t.Data, accessList := some t.accessList,
      V := t.V, R := t.R, S := t.S }
  | .blob t =>
    { enc with
      ChainID := some t.ChainID, Nonce := some t.Nonce,
      Gas := some t.Gas, MaxFeePerGas := some t.GasFeeCap,
      MaxPriorityFeePerGas := some t.GasTipCap,
      MaxFeePerDataGas := some t.BlobFeeCap, Value := some t.Value,
      Input := some t.Data, accessList := some t.accessList,
      BlobVersionedHashes := some t.BlobHashes, To := t.To,
      V := some t.V, R := some t.R, S := some t.S }
  | _ => enc

/-! ## Binary encoding of the deposit payloads and the nonce wrappers -/

/-- RLP encoding of a `DepositTx` value: the encoded fields in declaration
order wrapped in a list header (the `rlp:"nil"` To and Mint encode nil as
the empty string). -/
def rlpEncodeDepositTx (tx : DepositTx) : List Nat :=
  rlpEncodeListPayload
    (rlpHashVal tx.SourceHash ++ rlpAddr tx.From ++ rlpOptAddr tx.To ++
     rlpOptNat tx.Mint ++ rlpOptNat tx.Value ++ rlpNat tx.Gas ++
     rlpBool tx.IsSystemTransaction ++ rlpEncodeBytes tx.Data)

/-- RLP encoding of a `DepositTxMantle` value; the trailing `rlp:"optional"`
EthTxValue field is omitted when nil. -/
def rlpEncodeDepositTxMantle (tx : DepositTxMantle) : List Nat :=
  rlpEncodeListPayload
    (rlpHashVal tx.SourceHash ++ rlpAddr tx.From ++ rlpOptAddr tx.To ++
     rlpOptNat tx.Mint ++ rlpOptNat tx.Value ++ rlpNat tx.Gas ++
     rlpBool tx.IsSystemTransaction ++ rlpOptNat tx.EthValue ++
     rlpEncodeBytes tx.Data ++
     (match tx.EthTxValue with | some n => rlpNat n | none => []))

/-- Modelled from the spec: the base deposit's `encode` (outside the
slice) RLP-encodes the struct itself, as the in-slice
`DepositTxMantle.encode` does. -/
def DepositTx.encode (tx : DepositTx) : List Nat := rlpEncodeDepositTx tx

/-- `DepositTxMantle.encode` from tx_deposit_mantle.go: `rlp.Encode(b, tx)`. -/
def DepositTxMantle.encode (tx : DepositTxMantle) : List Nat := rlpEncodeDepositTxMantle tx

/-- `depositTxWithNonce.EncodeRLP` from transaction_marshalling.go:
`rlp.Encode(w, tx.DepositTx)` - only the embedded deposit is encoded, the
EffectiveNonce field is excluded. -/
def depositTxWithNonce.EncodeRLP (tx : depositTxWithNonce) : List Nat :=
  rlpEncodeDepositTx tx.toDepositTx

/-- `depositMantleTxWithNonce.EncodeRLP` from transaction_marshalling.go:
`rlp.Encode(w, tx.DepositTxMantle)`. -/
def depositMantleTxWithNonce.EncodeRLP (tx : depositMantleTxWithNonce) : List Nat :=
  rlpEncodeDepositTxMantle tx.toDepositTxMantle

/-- The identity hash of a typed transaction: a digest of the one-byte
type discriminant followed by the payload's canonical binary encoding
(`prefixedRlpHash`); the digest function itself (keccak) is opaque here. -/
def identityHash (digest : List Nat → Nat) (typeByte : Nat) (payloadBytes : List Nat) : Nat :=
  digest (typeByte :: payloadBytes)

/-! ## Accessors and deep copies used by the claims -/

/-- `DepositTxMantle.nonce` from tx_deposit_mantle.go: always 0. -/
def DepositTxMantle.nonce (_tx : DepositTxMantle) : Nat := 0

/-- `DepositTxMantle.effectiveNonce` from tx_deposit_mantle.go: nil. -/
def DepositTxMantle.effectiveNonce (_tx : DepositTxMantle) : Option Nat := none

/-- Modelled from the spec: the base deposit's `nonce()` accessor (outside
the slice) returns 0 like the in-slice `DepositTxMantle.nonce` - deposit
variants have no nonce field of their own (§3). -/
def DepositTx.nonce (_tx : DepositTx) : Nat := 0

/-- Modelled from the spec: base deposit `effectiveNonce()` is nil, like
the in-slice `DepositTxMantle.effectiveNonce`. -/
def DepositTx.effectiveNonce (_tx : DepositTx) : Option Nat := none

/-- The wrapper's `nonce()` is promoted from the embedded `DepositTx`
(the wrapper declares no `nonce` method of its own). -/
def depositTxWithNonce.nonce (tx : depositTxWithNonce) : Nat :=
  tx.toDepositTx.nonce

/-- `depositTxWithNonce.effectiveNonce` from transaction_marshalling.go:
returns (a non-nil pointer to) the EffectiveNonce override. -/
def depositTxWithNonce.effectiveNonce (tx : depositTxWithNonce) : Option Nat :=
  some tx.EffectiveNonce

/-- The mantle wrapper's `nonce()` is promoted from the embedded
`DepositTxMantle` (tx_deposit_mantle.go line 84: always 0). -/
def depositMantleTxWithNonce.nonce (tx : depositMantleTxWithNonce) : Nat :=
  tx.toDepositTxMantle.nonce

/-- `depositMantleTxWithNonce.effectiveNonce` from
transaction_marshalling.go: returns the EffectiveNonce override. -/
def depositMantleTxWithNonce.effectiveNonce (tx : depositMantleTxWithNonce) : Option Nat :=
  some tx.EffectiveNonce

/-- `ZetaCosmosEVMTx.rawSignatureValues` from tx_zeta.go. -/
def ZetaCosmosEVMTx.rawSignatureValues (tx : ZetaCosmosEVMTx) :
    Option Nat × Option Nat × Option Nat :=
  (tx.V, tx.R, tx.S)

/-- `DepositTxMantle.copy` from tx_deposit_mantle.go: the struct literal
copies SourceHash, From, To, Mint, Value, Gas, IsSystemTransaction and
Data (Mint nil stays nil, otherwise a fresh value copy; Value starts as a
fresh zero big.Int and is Set only when the source Value is non-nil).
EthValue and EthTxValue are not mentioned and are left at the Go zero
value nil. -/
def DepositTxMantle.copy (tx : DepositTxMantle) : DepositTxMantle :=
  { SourceHash := tx.SourceHash, From := tx.From, To := tx.To,
    Mint := tx.Mint, Value := some (tx.Value.getD 0), Gas := tx.Gas,
    IsSystemTransaction := tx.IsSystemTransaction, Data := tx.Data,
    EthValue := none, EthTxValue := none }

/-- `ZetaCosmosEVMTx.copy` from tx_zeta.go: copies Nonce, To, Data, Gas
and value-copies Value, GasPrice, V, R, S (nil becomes a fresh zero).
BlockHash and TxHash are not mentioned and are left at the zero hash. -/
def ZetaCosmosEVMTx.copy (tx : ZetaCosmosEVMTx) : ZetaCosmosEVMTx :=
  { BlockHash := 0, TxHash := 0, Nonce := tx.Nonce,
    GasPrice := some (tx.GasPrice.getD 0), Gas := tx.Gas, To := tx.To,
    Value := some (tx.Value.getD 0), Data := tx.Data,
    V := some (tx.V.getD 0), R := some (tx.R.getD 0), S := some (tx.S.getD 0) }

/-! ## Concrete objects used by the claims -/

/-- A complete valid legacy JSON object (all required fields present,
zero signature triple). -/
def legacyValid : TxJSON :=
  { TxType := LegacyTxType, Nonce := some 1, To := some 1001,
    Gas := some 21000, GasPrice := some 5, Value := some 10,
    Input := some [1, 2], V := some 0, R := some 0, S := some 0 }

/-- A complete valid Zeta JSON object (no v/r/s fields at all). -/
def zetaValid : TxJSON :=
  { TxType := ZetaCosmosEVMTxType, Nonce := some 1, To := some 1001,
    Gas := some 21000, GasPrice := some 5, Value := some 10,
    Input := some [1, 2], Hash := 9, BlockHash := 8 }

/-- A complete valid access-list JSON object. -/
def accessListValid : TxJSON :=
  { TxType := AccessListTxType, ChainID := some 1, Nonce := some 1,
    To := some 1001, Gas := some 21000, GasPrice := some 5,
    Value := some 10, Input := some [1, 2],
    accessList := some [(7, [3])], V := some 0, R := some 0, S := some 0 }

/-- A complete valid dynamic-fee JSON object. -/
def dynamicFeeValid : TxJSON :=
  { TxType := DynamicFeeTxType, ChainID := some 1, Nonce := some 1,
    To := some 1001, Gas := some 21000, MaxPriorityFeePerGas := some 2,
    MaxFeePerGas := some 3, Value := some 10, Input := some [1, 2],
    accessList := some [(7, [3])], V := some 0, R := some 0, S := some 0 }

/-- A complete valid blob JSON object (carries `maxFeePerBlobGas`, which
the decoder requires). -/
def blobValid : TxJSON :=
  { TxType := BlobTxType, ChainID := some 1, Nonce := some 1,
    To := some 1001, Gas := some 21000, MaxPriorityFeePerGas := some 2,
    MaxFeePerGas := some 3, MaxFeePerBlobGas := some 4, Value := some 10,
    Input := some [1, 2], accessList := some [(7, [3])],
    BlobVersionedHashes := some [11], V := some 0, R := some 0, S := some 0 }

/-- A complete valid base-deposit JSON object: no ethValue, no sender,
no nonce, and none of the forbidden fields. -/
def depositBaseValid : TxJSON :=
  { TxType := DepositTxType, To := some 30, Gas := some 21000,
    Value := some 10, Mint := some 3, Input := some [1, 2],
    From := some 77, SourceHash := some 55 }

/-- A complete valid mantle-deposit JSON object (ethValue present). -/
def depositMantleValid : TxJSON :=
  { depositBaseValid with EthValue := some 7, EthTxValue := some 9 }

/-- A complete valid L1-message JSON object (deposit type tag, sender
present, ethValue absent). -/
def l1MessageValid : TxJSON :=
  { TxType := DepositTxType, Sender := some 66, QueueIndex := some 12,
    Gas := some 21000, To := some 30, Value := some 10, Input := some [1, 2] }

/-- A complete valid Arbitrum-legacy JSON object. -/
def arbLegacyValid : TxJSON :=
  { TxType := ArbitrumLegacyTxType, Nonce := some 1, To := some 1001,
    Gas := some 21000, GasPrice := some 5, Value := some 10,
    Input := some [1, 2], V := some 0, R := some 0, S := some 0,
    EffectiveGasPrice := some 2, L1BlockNumber := some 3,
    From := some 44, Hash := 5 }

/-- A complete valid Arbitrum-internal JSON object. -/
def arbInternalValid : TxJSON :=
  { TxType := ArbitrumInternalTxType, ChainID := some 1, Input := some [1, 2] }

/-- A complete valid Arbitrum-deposit JSON object. -/
def arbDepositValid : TxJSON :=
  { TxType := ArbitrumDepositTxType, ChainID := some 1,
    RequestId := some 21, To := some 22, From := some 23, Value := some 10 }

/-- A complete valid Arbitrum-unsigned JSON object. -/
def arbUnsignedValid : TxJSON :=
  { TxType := ArbitrumUnsignedTxType, ChainID := some 1, From := some 23,
    Nonce := some 1, MaxFeePerGas := some 3, Gas := some 21000,
    To := some 1001, Value := some 10, Input := some [1, 2] }

/-- A complete valid Arbitrum-contract JSON object. -/
def arbContractValid : TxJSON :=
  { TxType := ArbitrumContractTxType, ChainID := some 1,
    RequestId := some 21, From := some 23, MaxFeePerGas := some 3,
    Gas := some 21000, To := some 1001, Value := some 10, Input := some [1, 2] }

/-- A complete valid Arbitrum-retry JSON object. -/
def arbRetryValid : TxJSON :=
  { TxType := ArbitrumRetryTxType, ChainID := some 1, Nonce := some 1,
    From := some 23, MaxFeePerGas := some 3, Gas := some 21000,
    To := some 1001, Value := some 10, Input := some [1, 2],
    TicketId := some 31, RefundTo := some 32, MaxRefund := some 33,
    SubmissionFeeRefund := some 34 }

/-- A complete valid Arbitrum-submit-retryable JSON object. -/
def arbSubmitRetryableValid : TxJSON :=
  { TxType := ArbitrumSubmitRetryableTxType, ChainID := some 1,
    RequestId := some 21, From := some 23, L1BaseFee := some 35,
    DepositValue := some 36, MaxFeePerGas := some 3, Gas := some 21000,
    Beneficiary := some 37, MaxSubmissionFee := some 38,
    RefundTo := some 32, RetryValue := some 39, RetryData := some [4],
    RetryTo := some 40 }

/-- Remove (set to nil) the JSON field with the given name. -/
def clearField (o : TxJSON) (f : String) : TxJSON :=
  if f = "chainId" then { o with ChainID := none }
  else if f = "nonce" then { o with Nonce := none }
  else if f = "to" then { o with To := none }
  else if f = "gas" then { o with Gas := none }
  else if f = "gasPrice" then { o with GasPrice := none }
  else if f = "maxPriorityFeePerGas" then { o with MaxPriorityFeePerGas := none }
  else if f = "maxFeePerGas" then { o with MaxFeePerGas := none }
  else if f = "maxFeePerBlobGas" then { o with MaxFeePerBlobGas := none }
  else if f = "value" then { o with Value := none }
  else if f = "input" then { o with Input := none }
  else if f = "v" then { o with V := none }
  else if f = "r" then { o with R := none }
  else if f = "s" then { o with S := none }
  else if f = "blobVersionedHashes" then { o with BlobVersionedHashes := none }
  else if f = "sourceHash" then { o with SourceHash := none }
  else if f = "from" then { o with From := none }
  else if f = "queueIndex" then { o with QueueIndex := none }
  else if f = "EffectiveGasPrice" then { o with EffectiveGasPrice := none }
  else if f = "L1BlockNumber" then { o with L1BlockNumber := none }
  else if f = "requestId" then { o with RequestId := none }
  else if f = "ticketId" then { o with TicketId := none }
  else if f = "refundTo" then { o with RefundTo := none }
  else if f = "maxRefund" then { o with MaxRefund := none }
  else if f = "submissionFeeRefund" then { o with SubmissionFeeRefund := none }
  else if f = "l1BaseFee" then { o with L1BaseFee := none }
  else if f = "depositValue" then { o with DepositValue := none }
  else if f = "beneficiary" then { o with Beneficiary := none }
  else if f = "maxSubmissionFee" then { o with MaxSubmissionFee := none }
  else if f = "retryValue" then { o with RetryValue := none }
  else if f = "retryData" then { o with RetryData := none }
  else o

/-- Does decoding `o` fail with a missing-field error naming exactly `f`
(and hence return no payload)? -/
def failsMissing (o : TxJSON) (f : String) : Bool :=
  match UnmarshalJSON o with
  | .error (.missingField g) => g == f
  | _ => false

/-- For every field name in `fs`: removing it from `o` makes decode fail
with a missing-field error naming that field. -/
def checkRequired (o : TxJSON) (fs : List String) : Bool :=
  fs.all (fun f => failsMissing (clearField o f) f)

/-- Equality of decode results is decidable (used to evaluate the claims
on concrete inputs). -/
instance {e a : Type} [DecidableEq e] [DecidableEq a] : DecidableEq (Except e a)
  | .ok x, .ok y => decidable_of_iff (x = y) (by simp)
  | .ok _, .error _ => isFalse (fun h => Except.noConfusion h)
  | .error _, .ok _ => isFalse (fun h => Except.noConfusion h)
  | .error x, .error y => decidable_of_iff (x = y) (by simp)

/-- Does decoding `o` return a payload at all? -/
def decodeSucceeds (o : TxJSON) : Bool :=
  match UnmarshalJSON o with
  | .ok _ => true
  | .error _ => false

/-- The catalog of type discriminants handled by the decode switch. -/
def catalogTxTypes : List Nat :=
  [LegacyTxType, ZetaCosmosEVMTxType, AccessListTxType, DynamicFeeTxType,
   BlobTxType, DepositTxType, ArbitrumLegacyTxType, ArbitrumInternalTxType,
   ArbitrumDepositTxType, ArbitrumUnsignedTxType, ArbitrumContractTxType,
   ArbitrumRetryTxType, ArbitrumSubmitRetryableTxType]

/-- An otherwise fully populated JSON object carrying an arbitrary type
discriminant. -/
def unknownTypeObj (t : Nat) : TxJSON :=
  { legacyValid with TxType := t }

/-- The legacy object with an arbitrary signature triple. -/
def legacySigObj (v r s : Nat) : TxJSON :=
  { legacyValid with V := some v, R := some r, S := some s }

/-- The access-list object with an arbitrary signature triple. -/
def accessListSigObj (v r s : Nat) : TxJSON :=
  { accessListValid with V := some v, R := some r, S := some s }

/-- The dynamic-fee object with an arbitrary signature triple. -/
def dynamicFeeSigObj (v r s : Nat) : TxJSON :=
  { dynamicFeeValid with V := some v, R := some r, S := some s }

/-- The blob object with an arbitrary signature triple. -/
def blobSigObj (v r s : Nat) : TxJSON :=
  { blobValid with V := some v, R := some r, S := some s }

/-- The Arbitrum-legacy object with an arbitrary signature triple. -/
def arbLegacySigObj (v r s : Nat) : TxJSON :=
  { arbLegacyValid with V := some v, R := some r, S := some s }

/-- The payload decoded from `legacySigObj v r s`. -/
def legacySigPayload (v r s : Nat) : TxData :=
  TxData.legacy
    { Nonce := 1, GasPrice := some 5, Gas := 21000, To := some 1001,
      Value := some 10, Data := [1, 2], V := some v, R := some r, S := some s }

/-- The payload decoded from `accessListSigObj v r s`. -/
def accessListSigPayload (v r s : Nat) : TxData :=
  TxData.accessListTx
    { ChainID := some 1, Nonce := 1, GasPrice := some 5, Gas := 21000,
      To := some 1001, Value := some 10, Data := [1, 2],
      accessList := [(7, [3])], V := some v, R := some r, S := some s }

/-- The payload decoded from `dynamicFeeSigObj v r s`. -/
def dynamicFeeSigPayload (v r s : Nat) : TxData :=
  TxData.dynamicFee
    { ChainID := some 1, Nonce := 1, GasTipCap := some 2, GasFeeCap := some 3,
      Gas := 21000, To := some 1001, Value := some 10, Data := [1, 2],
      accessList := [(7, [3])], V := some v, R := some r, S := some s }

/-- The payload decoded from `blobSigObj v r s`. -/
def blobSigPayload (v r s : Nat) : TxData :=
  TxData.blob
    { ChainID := 1, Nonce := 1, GasTipCap := 2, GasFeeCap := 3, Gas := 21000,
      To := some 1001, Value := 10, Data := [1, 2], accessList := [(7, [3])],
      BlobFeeCap := 4, BlobHashes := [11], V := v, R := r, S := s }

/-- The payload decoded from `arbLegacySigObj v r s`. -/
def arbLegacySigPayload (v r s : Nat) : TxData :=
  TxData.arbLegacy
    { LegacyTx :=
        { Nonce := 1, GasPrice := some 5, Gas := 21000, To := some 1001,
          Value := some 10, Data := [1, 2], V := some v, R := some r, S := some s },
      HashOverride := 5, EffectiveGasPrice := 2, L1BlockNumber := 3,
      Sender := some 44 }

/-- The base-deposit object with arbitrary values of the fields the
deposit variant forbids (access list, fee caps, gas price, signature). -/
def depositForbiddenObj (al : Option AccessList) (mf mp gp v r s : Option Nat) : TxJSON :=
  { depositBaseValid with
    accessList := al, MaxFeePerGas := mf, MaxPriorityFeePerGas := mp,
    GasPrice := gp, V := v, R := r, S := s }

/-- The payload decoded from `depositBaseValid`. -/
def baseDepositPayload : DepositTx :=
  { SourceHash := 55, From := 77, To := some 30, Mint := some 3,
    Value := some 10, Gas := 21000, IsSystemTransaction := false,
    Data := [1, 2] }

/-- The deposit-type object with arbitrary presence of the sub-variant
discriminating fields ethValue / sender and of the nonce override
(queueIndex is always present so that the L1-message sub-variant has its
required fields). -/
def depositDispatchObj (ev snd non : Option Nat) : TxJSON :=
  { depositBaseValid with
    EthValue := ev, Sender := snd, Nonce := non,
    QueueIndex := some 12, EthTxValue := some 9 }

/-- The mantle payload decoded from `depositDispatchObj (some e) _ _`. -/
def dispatchMantlePayload (e : Nat) : DepositTxMantle :=
  { SourceHash := 55, From := 77, To := some 30, Mint := some 3,
    Value := some 10, Gas := 21000, IsSystemTransaction := false,
    EthValue := some e, Data := [1, 2], EthTxValue := some 9 }

/-- The L1-message payload decoded from `depositDispatchObj none (some sd) _`. -/
def dispatchL1Payload (sd : Nat) : L1MessageTx :=
  { QueueIndex := 12, Gas := 21000, To := some 30, Value := some 10,
    Data := [1, 2], Sender := sd }

/-- The mantle payload decoded from `depositMantleValid` with its
sourceHash field removed: the hash silently defaults to zero. -/
def mantleNoSourcePayload : DepositTxMantle :=
  { SourceHash := 0, From := 77, To := some 30, Mint := some 3,
    Value := some 10, Gas := 21000, IsSystemTransaction := false,
    EthValue := some 7, Data := [1, 2], EthTxValue := some 9 }

/-- The Zeta object with an arbitrary (possibly absent) signature triple. -/
def zetaObjVRS (v r s : Option Nat) : TxJSON :=
  { zetaValid with V := v, R := r, S := s }

/-- The payload decoded from any `zetaObjVRS _ _ _`. -/
def zetaDecodedPayload : ZetaCosmosEVMTx :=
  { BlockHash := 8, TxHash := 9, Nonce := 1, GasPrice := some 5,
    Gas := 21000, To := some 1001, Value := some 10, Data := [1, 2],
    V := some 0, R := some 0, S := some 0 }

/-- A concrete blob payload exercising the JSON round trip. -/
def exampleBlobTx : BlobTx :=
  { ChainID := 1, Nonce := 1, GasTipCap := 2, GasFeeCap := 3, Gas := 21000,
    To := some 1001, Value := 10, Data := [1, 2], accessList := [(7, [3])],
    BlobFeeCap := 4, BlobHashes := [11], V := 0, R := 1, S := 1 }

/-- A concrete mantle deposit payload with both BVM_ETH fields set. -/
def exampleMantle : DepositTxMantle :=
  { SourceHash := 55, From := 77, To := some 30, Mint := some 3,
    Value := some 10, Gas := 21000, IsSystemTransaction := false,
    EthValue := some 7, Data := [1, 2], EthTxValue := some 9 }

/-- A concrete Zeta payload with non-zero block and transaction hashes. -/
def exampleZeta : ZetaCosmosEVMTx :=
  { BlockHash := 4, TxHash := 3, Nonce := 1, GasPrice := some 5,
    Gas := 21000, To := some 1001, Value := some 10, Data := [1, 2],
    V := some 27, R := some 6, S := some 7 }

/-! ## Claim theorems -/

/-- C1: the JSON codec is NOT a round trip for the blob variant.
`MarshalJSON` writes the blob fee cap under `maxFeePerDataGas` and never
sets `maxFeePerBlobGas`, while `UnmarshalJSON` requires
`maxFeePerBlobGas`; decoding the encoder's own output for a concrete blob
payload therefore fails with the missing-field error instead of returning
the payload. -/
theorem blob_json_roundtrip_fails :
    UnmarshalJSON (MarshalJSON 0 (TxData.blob exampleBlobTx)) =
      .error (DecodeErr.missingField "maxFeePerBlobGas") ∧
    (MarshalJSON 0 (TxData.blob exampleBlobTx)).MaxFeePerDataGas =
      some exampleBlobTx.BlobFeeCap ∧
    (MarshalJSON 0 (TxData.blob exampleBlobTx)).MaxFeePerBlobGas = none := by
  decide

/-- C2: for every deposit payload (base or mantle) and every effective
nonce, the wrapper's `EncodeRLP` output is byte-for-byte the binary
encoding of the wrapped payload itself, so any digest of the
type-prefixed encoding - the identity hash - coincides. -/
theorem depositWithNonce_encoding_stable :
    ∀ (d : DepositTx) (dm : DepositTxMantle) (n : Nat) (digest : List Nat → Nat),
      depositTxWithNonce.EncodeRLP { toDepositTx := d, EffectiveNonce := n } =
        DepositTx.encode d ∧
      depositMantleTxWithNonce.EncodeRLP { toDepositTxMantle := dm, EffectiveNonce := n } =
        DepositTxMantle.encode dm ∧
      identityHash digest DepositTxType
          (depositTxWithNonce.EncodeRLP { toDepositTx := d, EffectiveNonce := n }) =
        identityHash digest DepositTxType (DepositTx.encode d) ∧
      identityHash digest DepositTxType
          (depositMantleTxWithNonce.EncodeRLP { toDepositTxMantle := dm, EffectiveNonce := n }) =
        identityHash digest DepositTxType (DepositTxMantle.encode dm) :=
  fun _ _ _ _ => ⟨rfl, rfl, rfl, rfl⟩

/-- C3 counterexample: a mantle-type deposit object (ethValue present)
with the `sourceHash` field removed but all other fields intact decodes
successfully - `sourceHash` silently defaults to the zero hash - so the
claim that removing any spec-required deposit field fails with a
missing-field error is false for this variant. -/
theorem mantle_missing_sourceHash_decodes :
    UnmarshalJSON (clearField depositMantleValid "sourceHash") =
      .ok (TxData.depositMantle mantleNoSourcePayload) := by
  decide

/-- C3 (amended): for every variant of the catalog, removing any one
field of the variant's required-field set from an otherwise-valid JSON
object makes decode fail with a missing-field error naming exactly that
field (and no payload is returned) - with the one exception that the
mantle (ethValue-present) deposit sub-variant treats `sourceHash` as
optional and defaults it to the zero hash. -/
theorem requiredField_enforcement :
    checkRequired legacyValid
      ["nonce", "gas", "gasPrice", "value", "input", "v", "r", "s"] = true ∧
    checkRequired zetaValid
      ["nonce", "gas", "gasPrice", "value", "input"] = true ∧
    checkRequired accessListValid
      ["chainId", "nonce", "gas", "gasPrice", "value", "input", "v", "r", "s"] = true ∧
    checkRequired dynamicFeeValid
      ["chainId", "nonce", "gas", "maxPriorityFeePerGas", "maxFeePerGas",
       "value", "input", "v", "r", "s"] = true ∧
    checkRequired blobValid
      ["chainId", "nonce", "gas", "maxPriorityFeePerGas", "maxFeePerGas",
       "maxFeePerBlobGas", "value", "input", "v", "blobVersionedHashes",
       "r", "s"] = true ∧
    checkRequired depositBaseValid
      ["gas", "value", "input", "from", "sourceHash"] = true ∧
    checkRequired depositMantleValid
      ["gas", "value", "input", "from"] = true ∧
    checkRequired l1MessageValid
      ["queueIndex", "gas", "value", "input"] = true ∧
    checkRequired arbLegacyValid
      ["nonce", "gasPrice", "gas", "value", "input", "v", "r", "s",
       "EffectiveGasPrice", "L1BlockNumber"] = true ∧
    checkRequired arbInternalValid ["chainId", "input"] = true ∧
    checkRequired arbDepositValid
      ["chainId", "requestId", "to", "from", "value"] = true ∧
    checkRequired arbUnsignedValid
      ["chainId", "from", "nonce", "maxFeePerGas", "gas", "value", "input"] = true ∧
    checkRequired arbContractValid
      ["chainId", "requestId", "from", "maxFeePerGas", "gas", "value", "input"] = true ∧
    checkRequired arbRetryValid
      ["chainId", "nonce", "from", "maxFeePerGas", "gas", "value", "input",
       "ticketId", "refundTo", "maxRefund", "submissionFeeRefund"] = true ∧
    checkRequired arbSubmitRetryableValid
      ["chainId", "requestId", "from", "l1BaseFee", "depositValue",
       "maxFeePerGas", "gas", "beneficiary", "maxSubmissionFee", "refundTo",
       "retryValue", "retryData"] = true ∧
    UnmarshalJSON (clearField depositMantleValid "sourceHash") =
      .ok (TxData.depositMantle mantleNoSourcePayload) := by
  decide

/-- C4: decoding a deposit-type object fails exactly when `gasPrice` is
present and non-zero, or when any of `v`, `r`, `s` is present and
non-zero; with those fields absent or exactly zero (and accessList /
maxFeePerGas / maxPriorityFeePerGas absent) it decodes successfully; and
the presence of accessList, maxFeePerGas or maxPriorityFeePerGas - even
with an empty or zero value - fails with the unexpected-fields error. -/
theorem deposit_forbidden_fields :
    (∀ gp v r s : Option Nat,
      UnmarshalJSON (depositForbiddenObj none none none gp v r s) =
        if presentNonZero gp then .error DecodeErr.depositGasPriceNotZero
        else if presentNonZero v || presentNonZero r || presentNonZero s then
          .error DecodeErr.depositSignatureNotZero
        else .ok (TxData.deposit baseDepositPayload)) ∧
    (∀ (al : Option AccessList) (mf mp : Option Nat),
      (al.isSome || mf.isSome || mp.isSome) = true →
      UnmarshalJSON (depositForbiddenObj al mf mp none none none none) =
        .error DecodeErr.unexpectedDepositFields) := by
  constructor
  · intro gp v r s
    rfl
  · intro al mf mp h
    cases al <;> cases mf <;> cases mp <;> first | rfl | exact absurd h (by decide)

/-- C4 witness: a deposit object with `gasPrice`, `v`, `r`, `s` all
exactly zero decodes to the base deposit payload, and the same object
with an (empty) access list present is rejected. -/
theorem deposit_forbidden_fields_witness :
    UnmarshalJSON (depositForbiddenObj none none none (some 0) (some 0) (some 0) (some 0)) =
      (if presentNonZero (some 0) then .error DecodeErr.depositGasPriceNotZero
       else if presentNonZero (some 0) || presentNonZero (some 0) || presentNonZero (some 0) then
         .error DecodeErr.depositSignatureNotZero
       else .ok (TxData.deposit baseDepositPayload)) ∧
    UnmarshalJSON (depositForbiddenObj (some []) none none none none none none) =
      .error DecodeErr.unexpectedDepositFields :=
  ⟨deposit_forbidden_fields.1 (some 0) (some 0) (some 0) (some 0),
   deposit_forbidden_fields.2 (some []) none none (by decide)⟩

/-- C5 counterexample: the error returned for an unknown discriminant is
the fixed `ErrTxTypeNotSupported` value - identical for the discriminants
0xFF and 0xFE - so it cannot carry the raw discriminant value; the
discriminant is only printed to standard output. -/
theorem unsupportedType_error_carries_no_discriminant :
    UnmarshalJSON (unknownTypeObj 255) = UnmarshalJSON (unknownTypeObj 254) ∧
    UnmarshalJSON (unknownTypeObj 255) = .error DecodeErr.txTypeNotSupported := by
  decide

/-- C5 (amended): decoding an object whose type discriminant is not in
the catalog fails with the fixed `ErrTxTypeNotSupported` error (the raw
discriminant being printed for diagnostics, not carried in the error),
and no payload is produced. -/
theorem unknown_discriminant_rejected (t : Nat) (ht : t ∉ catalogTxTypes) :
    UnmarshalJSON (unknownTypeObj t) = .error DecodeErr.txTypeNotSupported := by
  simp only [catalogTxTypes, List.mem_cons, List.not_mem_nil, or_false, not_or] at ht
  obtain ⟨h1, h2, h3, h4, h5, h6, h7, h8, h9, h10, h11, h12, h13⟩ := ht
  simp only [UnmarshalJSON, unknownTypeObj, legacyValid]
  rw [if_neg h1, if_neg h2, if_neg h3, if_neg h4, if_neg h5, if_neg h6,
      if_neg h7, if_neg h8, if_neg h9, if_neg h10, if_neg h11, if_neg h12,
      if_neg h13]

/-- C5 witness: the discriminant 0xFF is not in the catalog and is
rejected with the fixed unsupported-type error. -/
theorem unknown_discriminant_rejected_witness :
    UnmarshalJSON (unknownTypeObj 255) = .error DecodeErr.txTypeNotSupported :=
  unknown_discriminant_rejected 255 (by decide)

/-- C6 counterexample: the effective-nonce wrapper's `nonce()` accessor
does NOT return the override supplied at wrapping time - it is promoted
from the embedded deposit payload and returns 0. -/
theorem wrapper_nonce_not_override :
    depositMantleTxWithNonce.nonce
      { toDepositTxMantle := exampleMantle, EffectiveNonce := 5 } ≠ 5 := by
  decide

/-- C6 (amended): for a deposit payload wrapped in the effective-nonce
adapter, `nonce()` still returns 0 (promoted from the wrapped payload);
it is the `effectiveNonce()` accessor that returns the override supplied
at wrapping time; and the binary encoding never includes the override -
it equals the RLP encoding of the wrapped payload alone. -/
theorem effectiveNonce_adapter_behavior :
    ∀ (d : DepositTx) (dm : DepositTxMantle) (n : Nat),
      depositTxWithNonce.nonce { toDepositTx := d, EffectiveNonce := n } = 0 ∧
      depositMantleTxWithNonce.nonce { toDepositTxMantle := dm, EffectiveNonce := n } = 0 ∧
      depositTxWithNonce.effectiveNonce { toDepositTx := d, EffectiveNonce := n } = some n ∧
      depositMantleTxWithNonce.effectiveNonce { toDepositTxMantle := dm, EffectiveNonce := n } = some n ∧
      depositTxWithNonce.EncodeRLP { toDepositTx := d, EffectiveNonce := n } =
        rlpEncodeDepositTx d ∧
      depositMantleTxWithNonce.EncodeRLP { toDepositTxMantle := dm, EffectiveNonce := n } =
        rlpEncodeDepositTxMantle dm :=
  fun _ _ _ => ⟨rfl, rfl, rfl, rfl, rfl, rfl⟩

/-- C7: for each signed variant (legacy, access-list, dynamic-fee, blob,
Arbitrum-legacy), decode of an otherwise-valid object runs the signature
sanity validation exactly when at least one of v, r, s is non-zero: an
all-zero triple decodes successfully with no check, and a non-zero triple
failing the check makes decode fail with the signature error.  The
bounds reflect the 256-bit cap `hexutil.Big` imposes on JSON numbers. -/
theorem signature_check_iff_nonzero (v r s : Nat)
    (hv : v < 2 ^ 256) (hr : r < 2 ^ 256) (hs : s < 2 ^ 256) :
    (UnmarshalJSON (legacySigObj v r s) =
      if (v != 0 || r != 0 || s != 0) && !(sanityCheckSignature v r s true) then
        .error DecodeErr.invalidSignature
      else .ok (legacySigPayload v r s)) ∧
    (UnmarshalJSON (accessListSigObj v r s) =
      if (v != 0 || r != 0 || s != 0) && !(sanityCheckSignature v r s false) then
        .error DecodeErr.invalidSignature
      else .ok (accessListSigPayload v r s)) ∧
    (UnmarshalJSON (dynamicFeeSigObj v r s) =
      if (v != 0 || r != 0 || s != 0) && !(sanityCheckSignature v r s false) then
        .error DecodeErr.invalidSignature
      else .ok (dynamicFeeSigPayload v r s)) ∧
    (UnmarshalJSON (blobSigObj v r s) =
      if (v != 0 || r != 0 || s != 0) && !(sanityCheckSignature v r s false) then
        .error DecodeErr.invalidSignature
      else .ok (blobSigPayload v r s)) ∧
    (UnmarshalJSON (arbLegacySigObj v r s) =
      if (v != 0 || r != 0 || s != 0) && !(sanityCheckSignature v r s true) then
        .error DecodeErr.invalidSignature
      else .ok (arbLegacySigPayload v r s)) :=
  ⟨rfl, rfl, rfl, rfl, rfl⟩

/-- C7 witness: the triple (27, 1, 1) passes the legacy-style check and
the legacy object decodes to its payload. -/
theorem signature_check_iff_nonzero_witness :
    UnmarshalJSON (legacySigObj 27 1 1) = .ok (legacySigPayload 27 1 1) :=
  ((signature_check_iff_nonzero 27 1 1 (by norm_num) (by norm_num)
    (by norm_num)).1).trans (by decide)

/-- C8 counterexample: a deposit-type object with a sender (L1-message
sub-variant) and a nonce field present decodes to a bare L1-message
payload - the nonce is ignored, NOT wrapped in the effective-nonce
adapter. -/
theorem l1_message_ignores_nonce :
    UnmarshalJSON (depositDispatchObj none (some 66) (some 42)) =
      .ok (TxData.l1Message (dispatchL1Payload 66)) := by
  decide

/-- C8 (amended): the deposit decode branch selects the mantle sub-variant
when ethValue is present, the L1-message sub-variant when ethValue is
absent and sender is present, and the base deposit otherwise; a present
nonce field wraps the result in the effective-nonce adapter for the
mantle and base sub-variants, while the L1-message sub-variant ignores
the nonce field. -/
theorem deposit_subvariant_dispatch :
    ∀ ev snd non : Option Nat,
      UnmarshalJSON (depositDispatchObj ev snd non) =
        match ev with
        | some e =>
          (match non with
           | some n => .ok (TxData.depositMantleWithNonce
               { toDepositTxMantle := dispatchMantlePayload e, EffectiveNonce := n })
           | none => .ok (TxData.depositMantle (dispatchMantlePayload e)))
        | none =>
          match snd with
          | some sd => .ok (TxData.l1Message (dispatchL1Payload sd))
          | none =>
            match non with
            | some n => .ok (TxData.depositWithNonce
                { toDepositTx := baseDepositPayload, EffectiveNonce := n })
            | none => .ok (TxData.deposit baseDepositPayload) := by
  intro ev snd non
  cases ev <;> cases snd <;> cases non <;> rfl

/-- C9: the deep-copy operations do not preserve every field.
`DepositTxMantle.copy` (whose comment promises to initialize all fields)
drops EthValue and EthTxValue, and `ZetaCosmosEVMTx.copy` drops TxHash
and BlockHash - each is left at its zero value in the copy although the
original carries a non-zero value. -/
theorem copy_drops_fields :
    (DepositTxMantle.copy exampleMantle).EthValue = none ∧
    exampleMantle.EthValue = some 7 ∧
    (DepositTxMantle.copy exampleMantle).EthTxValue = none ∧
    exampleMantle.EthTxValue = some 9 ∧
    (ZetaCosmosEVMTx.copy exampleZeta).TxHash = 0 ∧
    exampleZeta.TxHash = 3 ∧
    (ZetaCosmosEVMTx.copy exampleZeta).BlockHash = 0 ∧
    exampleZeta.BlockHash = 4 := by
  decide

/-- C10: decoding a Zeta-type object never reads the v, r, s fields: the
result is one fixed payload whatever those fields hold (absent included),
its stored signature triple is exactly zero, and `rawSignatureValues` on
the decoded payload returns the zero triple. -/
theorem zeta_ignores_signature_fields :
    ∀ v r s : Option Nat,
      UnmarshalJSON (zetaObjVRS v r s) = .ok (TxData.zeta zetaDecodedPayload) ∧
      zetaDecodedPayload.rawSignatureValues = (some 0, some 0, some 0) :=
  fun _ _ _ => ⟨rfl, rfl⟩
